import Mathlib

/-!
Shallow embedding of the websocket-load-test repository's core
(`internal/stats/manager.go` and `internal/client/websocket.go`).

Modelling conventions:
* Go `time.Time` values are modelled as `Nat` timestamps; the Go zero time
  `time.Time{}` is `0`.  `time.Since(t)` at instant `now` is `now - t`
  (natural subtraction; the Go monotonic clock never runs backwards).
* Go `time.Duration` and the integer counters (`int`) are modelled as `Nat`;
  the counters only ever grow by one per call, so machine overflow is out of
  scope for every claim considered here.
* Go maps (`map[string]string`, `map[string]int`, `map[int]string`) are
  modelled as total functions into `Option _` (resp. into `Nat`, matching the
  zero-value-on-missing-key behaviour of `m[k]++`); map assignment is a
  pointwise functional update, which gives Go's last-write-wins semantics.
* The dynamically typed JSON fields of `types.JSONRPCResponse` (`ID`,
  `Result`, `Error`, `Params`, each `any`) are modelled by small inductives
  capturing exactly the shape tests the code performs: `ID.(float64)`,
  `Result != nil`, `Result.(string)`, `Error != nil`,
  `Params.(map[string]interface{})` and the `"subscription"` key lookup.
* Rendering (terminal output, spinner state, the `needFullClear` flag) is
  display-only and not modelled; `PrintFinalStats` is modelled by its only
  state mutation (the uptime flush) plus the pure success-rate computation,
  whose float64 arithmetic is modelled exactly over `ℚ`.
-/

namespace WsLoad

/-- The `ID any` field of `types.JSONRPCResponse`: absent (nil), a JSON
number (decoded by Go as `float64`; only its numeric nature and integer
value matter to the code), or some non-numeric value. -/
inductive RpcId where
  | null
  | num (n : Int)
  | other
deriving DecidableEq, Repr

/-- The `Result any` field: absent (nil), a JSON string, or some other
non-nil value. -/
inductive RpcResult where
  | null
  | str (s : String)
  | other
deriving DecidableEq, Repr

/-- The `Error any` field: only its nil-ness is ever inspected. -/
inductive RpcError where
  | null
  | obj
deriving DecidableEq, Repr

/-- The `Params any` field as inspected by `Manager.HandleResponse`:
not a map (including nil), a map without a `"subscription"` key, or a map
whose `"subscription"` value stringifies (via `fmt.Sprintf`) to `sub`. -/
inductive RpcParams where
  | nonMap
  | mapNoSub
  | mapWithSub (sub : String)
deriving DecidableEq, Repr

/-- `Result != nil` in Go. -/
def RpcResult.isPresent : RpcResult → Bool
  | RpcResult.null => false
  | _ => true

/-- The type assertion `response.ID.(float64)` succeeding. -/
def RpcId.isNumeric : RpcId → Bool
  | RpcId.num _ => true
  | _ => false

/-- `Error != nil` in Go. -/
def RpcError.isPresent : RpcError → Bool
  | RpcError.null => false
  | RpcError.obj => true

/-- `types.JSONRPCResponse` restricted to the fields the code reads. -/
structure JSONRPCResponse where
  jsonrpc : String
  id : RpcId
  result : RpcResult
  error : RpcError
  method : String
  params : RpcParams
deriving DecidableEq, Repr

/-- `types.Stats` with times/durations as `Nat` (see module comment). -/
structure Stats where
  totalConnections : Nat
  totalReconnections : Nat
  currentConnStart : Nat
  totalUptime : Nat
  eventsReceived : Nat
  clientStartTime : Nat
  subscriptionEvents : Nat
  confirmationEvents : Nat
  errorEvents : Nat
  lastEventTime : Nat
  connectionAttempts : Nat
  currentConnMessages : Nat
  longestConnection : Nat
  shortestConnection : Nat
deriving DecidableEq, Repr

/-- `types.ConnectionHistory`. -/
structure ConnectionHistory where
  connectionNum : Nat
  startTime : Nat
  endTime : Nat
  duration : Nat
  messages : Nat
deriving DecidableEq, Repr

/-- `stats.Manager` (display-only fields `spinnerChars`, `spinnerIndex`,
`needFullClear` omitted). -/
structure Manager where
  stats : Stats
  connectionHistory : List ConnectionHistory
  messagesByType : String → Nat
  subIDToType : String → Option String

/-- `stats.NewManager()`, called at process start time `t0`. -/
def NewManager (t0 : Nat) : Manager where
  stats :=
    { totalConnections := 0
      totalReconnections := 0
      currentConnStart := 0
      totalUptime := 0
      eventsReceived := 0
      clientStartTime := t0
      subscriptionEvents := 0
      confirmationEvents := 0
      errorEvents := 0
      lastEventTime := 0
      connectionAttempts := 0
      currentConnMessages := 0
      longestConnection := 0
      shortestConnection := 0 }
  connectionHistory := []
  messagesByType := fun _ => 0
  subIDToType := fun _ => none

/-- `m.messagesByType[k]++` on a Go `map[string]int` (missing key reads 0). -/
def bumpCount (f : String → Nat) (k : String) : String → Nat :=
  fun x => if x = k then f x + 1 else f x

/-- `Manager.IncrementConnectionAttempts`. -/
def Manager.IncrementConnectionAttempts (m : Manager) : Manager :=
  { m with stats := { m.stats with connectionAttempts := m.stats.connectionAttempts + 1 } }

/-- `Manager.StartNewConnection`, at instant `now`. -/
def Manager.StartNewConnection (m : Manager) (now : Nat) : Manager :=
  { m with stats :=
      { m.stats with
        totalConnections := m.stats.totalConnections + 1
        currentConnStart := now
        currentConnMessages := 0 } }

/-- `Manager.IncrementReconnections`: guarded by `TotalConnections > 0`. -/
def Manager.IncrementReconnections (m : Manager) : Manager :=
  if 0 < m.stats.totalConnections then
    { m with stats := { m.stats with totalReconnections := m.stats.totalReconnections + 1 } }
  else m

/-- `Manager.EndConnection`, at instant `now`. -/
def Manager.EndConnection (m : Manager) (now : Nat) : Manager :=
  if 0 < m.stats.totalConnections then
    let d := now - m.stats.currentConnStart
    { m with
      stats :=
        { m.stats with
          totalUptime := m.stats.totalUptime + d
          longestConnection :=
            if m.stats.longestConnection = 0 ∨ m.stats.longestConnection < d then d
            else m.stats.longestConnection
          shortestConnection :=
            if m.stats.shortestConnection = 0 ∨ d < m.stats.shortestConnection then d
            else m.stats.shortestConnection }
      connectionHistory := m.connectionHistory ++
        [{ connectionNum := m.stats.totalConnections
           startTime := m.stats.currentConnStart
           endTime := now
           duration := d
           messages := m.stats.currentConnMessages }] }
  else m

/-- `Manager.getSubscriptionTypeFromID`: lookup with `""` as the
not-found sentinel. -/
def Manager.getSubscriptionTypeFromID (m : Manager) (subscriptionID : String) : String :=
  match m.subIDToType subscriptionID with
  | some t => t
  | none => ""

/-- `Manager.SetSubscriptionMapping`: Go map assignment, last write wins. -/
def Manager.SetSubscriptionMapping (m : Manager) (subscriptionID subscriptionType : String) :
    Manager :=
  { m with subIDToType :=
      fun k => if k = subscriptionID then some subscriptionType else m.subIDToType k }

/-- `Manager.HandleResponse`, at instant `now`: base counters first, then the
`if method == "eth_subscription"` / `else if Result != nil` /
`else if Error != nil` chain. -/
def Manager.HandleResponse (m : Manager) (r : JSONRPCResponse) (now : Nat) : Manager :=
  let s0 :=
    { m.stats with
      eventsReceived := m.stats.eventsReceived + 1
      currentConnMessages := m.stats.currentConnMessages + 1
      lastEventTime := now }
  if r.method = "eth_subscription" then
    let s1 := { s0 with subscriptionEvents := s0.subscriptionEvents + 1 }
    match r.params with
    | RpcParams.mapWithSub sub =>
        let ty := m.getSubscriptionTypeFromID sub
        if ty ≠ "" then
          { m with stats := s1, messagesByType := bumpCount m.messagesByType ty }
        else
          { m with stats := s1, messagesByType := bumpCount m.messagesByType "unknown" }
    | _ => { m with stats := s1 }
  else if r.result.isPresent then
    if r.id.isNumeric then
      { m with stats := { s0 with confirmationEvents := s0.confirmationEvents + 1 } }
    else
      { m with stats := s0 }
  else if r.error.isPresent then
    { m with stats := { s0 with errorEvents := s0.errorEvents + 1 } }
  else
    { m with stats := s0 }

/-- The state mutation of `Manager.PrintFinalStats`, at instant `now`: the
final uptime flush, guarded by `CurrentConnStart != time.Time{}`. -/
def Manager.PrintFinalStats (m : Manager) (now : Nat) : Manager :=
  if m.stats.currentConnStart ≠ 0 then
    { m with stats :=
        { m.stats with totalUptime := m.stats.totalUptime + (now - m.stats.currentConnStart) } }
  else m

/-- The success-rate line of `PrintFinalStats` (and, identically, of
`DisplayRunningStats`): computed and printed only when `EventsReceived > 0`;
`none` means the line is omitted.  Float64 arithmetic modelled over `ℚ`. -/
def Manager.finalSuccessRate (m : Manager) : Option ℚ :=
  if 0 < m.stats.eventsReceived then
    some ((((m.stats.eventsReceived : ℚ) - (m.stats.errorEvents : ℚ)) /
      (m.stats.eventsReceived : ℚ)) * 100)
  else none

/-- `types.Config` (the `URL` is only dialed, never parsed by the modelled
code paths; `SubCount` as `Nat` — the CLI validates it to be ≥ 1). -/
structure Config where
  url : String
  serviceID : String
  authHeader : String
  subscriptions : String
  subCount : Nat
deriving DecidableEq, Repr

/-- `strings.Split(s, ",")` over the character list (Go semantics: splitting
around every comma; the empty string yields `[""]`). -/
def splitCommaChars : List Char → List Char → List (List Char)
  | [], acc => [acc.reverse]
  | c :: rest, acc =>
      if c = ',' then acc.reverse :: splitCommaChars rest []
      else splitCommaChars rest (c :: acc)

/-- `strings.Split(s, ",")`. -/
def goSplitComma (s : String) : List String :=
  (splitCommaChars s.data []).map fun l => String.mk l

/-- The ASCII cases of `unicode.IsSpace` (the only ones subscription-list
strings contain). -/
def isGoSpace (c : Char) : Bool :=
  c = ' ' ∨ c = '\t' ∨ c = '\n' ∨ c = '\x0b' ∨ c = '\x0c' ∨ c = '\r'

/-- `strings.TrimSpace`. -/
def goTrimSpace (s : String) : String :=
  String.mk (((s.data.dropWhile isGoSpace).reverse.dropWhile isGoSpace).reverse)

/-- The `params` value of one subscribe request: either a JSON array of
strings, or (for `"logs"`) the two-element array of the name and the filter
object `{"topics": [null]}` (carried here as its name plus the fixed
null-topics filter marker). -/
inductive SubParams where
  | names (l : List String)
  | nameAndNullTopicsFilter (name : String)
deriving DecidableEq, Repr

/-- The `switch sub` of `sendSubscriptions` building the request params. -/
def paramsForSub (sub : String) : SubParams :=
  if sub = "newHeads" then SubParams.names ["newHeads"]
  else if sub = "newPendingTransactions" then SubParams.names ["newPendingTransactions"]
  else if sub = "logs" then SubParams.nameAndNullTopicsFilter "logs"
  else SubParams.names [sub]

/-- `types.JSONRPCRequest`. -/
structure JSONRPCRequest where
  jsonrpc : String
  id : Nat
  method : String
  params : SubParams
deriving DecidableEq, Repr

/-- `client.WebSocketClient` (the connection handle, config pointer and done
channel live outside the modelled state). -/
structure WSClient where
  subscriptionIDs : String → Option Nat
  idToSubscription : Int → Option String
  totalSubscriptions : Nat

/-- `client.NewWebSocketClient`: empty maps, zero subscriptions. -/
def NewWebSocketClient : WSClient where
  subscriptionIDs := fun _ => none
  idToSubscription := fun _ => none
  totalSubscriptions := 0

/-- `WebSocketClient.GetTotalSubscriptions`. -/
def WSClient.GetTotalSubscriptions (c : WSClient) : Nat :=
  c.totalSubscriptions

/-- The evolving state of one `sendSubscriptions` call: the client fields it
mutates, the requests successfully written so far, and the local
`requestID` counter. -/
structure SendSt where
  client : WSClient
  sent : List JSONRPCRequest
  requestID : Nat

/-- One iteration of the inner `for instance := 1; instance <= SubCount`
loop of `sendSubscriptions`.  `fail id` models `conn.WriteJSON` failing for
the request carrying that id (ids and send attempts are in bijection, since
`requestID` is incremented exactly once per attempted send, success or
failure).  `inst` is the Go loop variable `instance` (a Lean keyword). -/
def sendInstance (fail : Nat → Bool) (sub : String) (inst : Nat) (st : SendSt) : SendSt :=
  let req : JSONRPCRequest :=
    { jsonrpc := "2.0", id := st.requestID, method := "eth_subscribe"
      params := paramsForSub sub }
  if fail st.requestID then
    { st with requestID := st.requestID + 1 }
  else
    { client :=
        { subscriptionIDs := fun k =>
            if k = sub ++ "#" ++ toString inst then some st.requestID
            else st.client.subscriptionIDs k
          idToSubscription := fun n =>
            if n = (st.requestID : Int) then some sub else st.client.idToSubscription n
          totalSubscriptions := st.client.totalSubscriptions + 1 }
      sent := st.sent ++ [req]
      requestID := st.requestID + 1 }

/-- One iteration of the outer loop of `sendSubscriptions`: trim the entry,
skip it when empty, otherwise run `SubCount` instances. -/
def processEntry (subCount : Nat) (fail : Nat → Bool) (st : SendSt) (entry : String) : SendSt :=
  let sub := goTrimSpace entry
  if sub = "" then st
  else (List.range' 1 subCount).foldl (fun acc i => sendInstance fail sub i acc) st

/-- `WebSocketClient.sendSubscriptions`: split the configured list on commas
and process every entry, `requestID` starting at 1. -/
def sendSubscriptions (cfg : Config) (fail : Nat → Bool) (c : WSClient) : SendSt :=
  (goSplitComma cfg.subscriptions).foldl (processEntry cfg.subCount fail)
    { client := c, sent := [], requestID := 1 }

/-- `WebSocketClient.handleResponse`: always forward to
`Manager.HandleResponse`; additionally, for a frame with a non-nil result, a
numeric id tracked in `idToSubscription`, and a string result, register the
server handle via `SetSubscriptionMapping`. -/
def WSClient.handleResponse (c : WSClient) (m : Manager) (r : JSONRPCResponse) (now : Nat) :
    Manager :=
  let m1 := m.HandleResponse r now
  if r.result.isPresent then
    match r.id with
    | RpcId.num n =>
        match c.idToSubscription n with
        | some subType =>
            match r.result with
            | RpcResult.str h => m1.SetSubscriptionMapping h subType
            | _ => m1
        | none => m1
    | _ => m1
  else m1

/-- The two mutable components `connectAndListen` touches. -/
structure System where
  client : WSClient
  mgr : Manager

/-- One successful dial in `connectAndListen`: attempt, begin connection at
`tStart`, send subscriptions (with `fail` deciding which writes fail), then
run the read loop over `frames` (each paired with its arrival instant); the
read loop ends either by the done signal (`interrupted = true`, no stats
calls) or by a read error (`EndConnection` at `tEnd` then
`IncrementReconnections`).  `sessionMgr` is the manager state after the
attempt/begin calls and the read loop, before the session's ending. -/
def sessionMgr (cfg : Config) (s : System) (fail : Nat → Bool)
    (frames : List (JSONRPCResponse × Nat)) (tStart : Nat) : Manager :=
  frames.foldl
    (fun acc p => ((sendSubscriptions cfg fail s.client).client).handleResponse acc p.1 p.2)
    ((s.mgr.IncrementConnectionAttempts).StartNewConnection tStart)

def runSession (cfg : Config) (s : System) (fail : Nat → Bool)
    (frames : List (JSONRPCResponse × Nat)) (tStart tEnd : Nat) (interrupted : Bool) : System :=
  if interrupted then
    { client := (sendSubscriptions cfg fail s.client).client
      mgr := sessionMgr cfg s fail frames tStart }
  else
    { client := (sendSubscriptions cfg fail s.client).client
      mgr := ((sessionMgr cfg s fail frames tStart).EndConnection tEnd).IncrementReconnections }

/-- One iteration of `connectionLoop`/`connectAndListen`: an unparseable URL
does nothing (sleep only), a failed dial records an attempt and a
reconnection, and a successful dial runs a full session.  Each iteration
records the attempt before dialing, begins a connection only on success, and
records at most one reconnection. -/
inductive SysStep (cfg : Config) : System → System → Prop where
  | invalidURL (s : System) : SysStep cfg s s
  | dialFail (s : System) :
      SysStep cfg s
        { client := s.client, mgr := (s.mgr.IncrementConnectionAttempts).IncrementReconnections }
  | session (s : System) (fail : Nat → Bool) (frames : List (JSONRPCResponse × Nat))
      (tStart tEnd : Nat) (interrupted : Bool) :
      SysStep cfg s (runSession cfg s fail frames tStart tEnd interrupted)

/-- States reachable from process start (fresh client and manager) by
iterations of the connection loop. -/
inductive SysReachable (cfg : Config) : System → Prop where
  | init (t0 : Nat) : SysReachable cfg { client := NewWebSocketClient, mgr := NewManager t0 }
  | step {s s' : System} : SysReachable cfg s → SysStep cfg s s' → SysReachable cfg s'

/-- `R` consecutive full sessions (every dial succeeding), session `k` using
frames `frames k`, start/end instants `ts k`/`te k` and interruption flag
`intr k`. -/
def iterSessions (cfg : Config) (fail : Nat → Bool)
    (frames : Nat → List (JSONRPCResponse × Nat)) (ts te : Nat → Nat) (intr : Nat → Bool) :
    Nat → System → System
  | 0, s => s
  | R + 1, s =>
      iterSessions cfg fail frames ts te intr R
        (runSession cfg s fail (frames R) (ts R) (te R) (intr R))

/-- The number of requests one `sendSubscriptions` call writes successfully
(independent of the incoming client state, since `requestID` restarts at 1
on every call). -/
def sendCount (cfg : Config) (fail : Nat → Bool) : Nat :=
  (sendSubscriptions cfg fail NewWebSocketClient).client.totalSubscriptions

/-! Derived combinators and concrete instances used by the theorems below. -/

/-- The base-counter update every `HandleResponse` call performs before
classification. -/
def hrBase (s : Stats) (now : Nat) : Stats :=
  { s with
    eventsReceived := s.eventsReceived + 1
    currentConnMessages := s.currentConnMessages + 1
    lastEventTime := now }

/-- `N` consecutive `HandleResponse` calls (frame, arrival instant). -/
def handleEvents (m : Manager) (frames : List (JSONRPCResponse × Nat)) : Manager :=
  frames.foldl (fun acc p => acc.HandleResponse p.1 p.2) m

/-- A Notification frame carrying subscription handle `h` in its params. -/
def notifFrame (h : String) : JSONRPCResponse where
  jsonrpc := "2.0"
  id := RpcId.null
  result := RpcResult.null
  error := RpcError.null
  method := "eth_subscription"
  params := RpcParams.mapWithSub h

/-- A frame with no method, a present (non-string) result, no id, and a
present error: not a Notification, not Confirmation-shaped (its id is not
numeric), yet carrying an error. -/
def resultAndErrorFrame : JSONRPCResponse where
  jsonrpc := "2.0"
  id := RpcId.null
  result := RpcResult.other
  error := RpcError.obj
  method := ""
  params := RpcParams.nonMap

/-- A frame with no method, no result and no error (a malformed frame in the
spec's sense). -/
def emptyFrame : JSONRPCResponse where
  jsonrpc := "2.0"
  id := RpcId.null
  result := RpcResult.null
  error := RpcError.null
  method := ""
  params := RpcParams.nonMap

/-- The Config of the send-phase scenario: subscription list
`"newHeads,logs"`, two instances of each type. -/
def cfgNewHeadsLogs2 : Config where
  url := "wss://example.invalid/v1"
  serviceID := "svc"
  authHeader := ""
  subscriptions := "newHeads,logs"
  subCount := 2

/-- The connection-manager/stats invariant maintained by every iteration of
the connection loop. -/
def MgrInv (m : Manager) : Prop :=
  m.stats.totalConnections ≤ m.stats.connectionAttempts ∧
  m.stats.totalReconnections ≤ m.stats.connectionAttempts ∧
  List.Chain' (fun a b => a.connectionNum ≤ b.connectionNum) m.connectionHistory ∧
  ∀ cr ∈ m.connectionHistory, 1 ≤ cr.connectionNum ∧ cr.connectionNum ≤ m.stats.totalConnections

/-- An error-only frame (numeric id, no result, error object). -/
def errorOnlyFrame : JSONRPCResponse where
  jsonrpc := "2.0"
  id := RpcId.num 1
  result := RpcResult.null
  error := RpcError.obj
  method := ""
  params := RpcParams.nonMap

/-- The number of successful writes in `n` consecutive send attempts whose
first request id is `rid` (the inner instance loop). -/
def instancesDelta (fail : Nat → Bool) : Nat → Nat → Nat
  | _, 0 => 0
  | rid, n + 1 => (if fail rid then 0 else 1) + instancesDelta fail (rid + 1) n

/-- The number of successful writes one `sendSubscriptions` call performs
over the given entries, starting from request id `rid`. -/
def entriesDelta (fail : Nat → Bool) (subCount : Nat) : Nat → List String → Nat
  | _, [] => 0
  | rid, e :: rest =>
      if goTrimSpace e = "" then entriesDelta fail subCount rid rest
      else instancesDelta fail rid subCount + entriesDelta fail subCount (rid + subCount) rest

/-- How far the request-id counter advances over the given entries. -/
def entriesShift (subCount : Nat) : List String → Nat
  | [] => 0
  | e :: rest => (if goTrimSpace e = "" then 0 else subCount) + entriesShift subCount rest

/-- The initial system state: fresh client, fresh manager started at 0. -/
def sys0 : System where
  client := NewWebSocketClient
  mgr := NewManager 0

/-- `sys0` after one failed dial. -/
def sys1 : System where
  client := sys0.client
  mgr := (sys0.mgr.IncrementConnectionAttempts).IncrementReconnections

/-! ## Theorems -/

/-- Every `HandleResponse` call leaves history and the registry map intact
and produces the base-counter update plus at most one categorized bump. -/
theorem HandleResponse_cases (m : Manager) (r : JSONRPCResponse) (now : Nat) :
    ((m.HandleResponse r now).connectionHistory = m.connectionHistory ∧
     (m.HandleResponse r now).subIDToType = m.subIDToType) ∧
    ((m.HandleResponse r now).stats = hrBase m.stats now ∨
     (m.HandleResponse r now).stats =
       { hrBase m.stats now with subscriptionEvents := m.stats.subscriptionEvents + 1 } ∨
     (m.HandleResponse r now).stats =
       { hrBase m.stats now with confirmationEvents := m.stats.confirmationEvents + 1 } ∨
     (m.HandleResponse r now).stats =
       { hrBase m.stats now with errorEvents := m.stats.errorEvents + 1 }) := by
  obtain ⟨jr, rid, res, rerr, meth, rpar⟩ := r
  by_cases hm : meth = "eth_subscription" <;>
    cases res <;> cases rid <;> cases rerr <;> cases rpar <;>
      simp [Manager.HandleResponse, hm, RpcResult.isPresent, RpcId.isNumeric,
        RpcError.isPresent, hrBase] <;>
      (try split) <;> simp

/-- Field-wise consequences of `HandleResponse_cases`. -/
theorem HandleResponse_fixed (m : Manager) (r : JSONRPCResponse) (now : Nat) :
    (m.HandleResponse r now).stats.eventsReceived = m.stats.eventsReceived + 1 ∧
    (m.HandleResponse r now).stats.currentConnMessages = m.stats.currentConnMessages + 1 ∧
    (m.HandleResponse r now).stats.lastEventTime = now ∧
    (m.HandleResponse r now).stats.totalConnections = m.stats.totalConnections ∧
    (m.HandleResponse r now).stats.totalReconnections = m.stats.totalReconnections ∧
    (m.HandleResponse r now).stats.connectionAttempts = m.stats.connectionAttempts ∧
    (m.HandleResponse r now).stats.currentConnStart = m.stats.currentConnStart ∧
    (m.HandleResponse r now).stats.totalUptime = m.stats.totalUptime ∧
    (m.HandleResponse r now).connectionHistory = m.connectionHistory ∧
    m.stats.subscriptionEvents ≤ (m.HandleResponse r now).stats.subscriptionEvents ∧
    m.stats.confirmationEvents ≤ (m.HandleResponse r now).stats.confirmationEvents ∧
    m.stats.errorEvents ≤ (m.HandleResponse r now).stats.errorEvents ∧
    (m.HandleResponse r now).stats.subscriptionEvents +
      (m.HandleResponse r now).stats.confirmationEvents +
      (m.HandleResponse r now).stats.errorEvents ≤
      m.stats.subscriptionEvents + m.stats.confirmationEvents + m.stats.errorEvents + 1 := by
  obtain ⟨⟨hh, _⟩, hc⟩ := HandleResponse_cases m r now
  rcases hc with h | h | h | h <;> simp [h, hrBase, hh] <;> omega

/-- C4: for any `N` calls to `HandleResponse` with no connection boundary
between them, events-received and current-connection messages grow by
exactly `N` while the three categorized counters grow by at most `N` in
total; `LastEventTime` is set on every call; a frame with no method, no
result and no error changes none of the three categorized counters. -/
theorem C4_handle_event_counts :
    (∀ (m : Manager) (frames : List (JSONRPCResponse × Nat)),
      (handleEvents m frames).stats.eventsReceived
        = m.stats.eventsReceived + frames.length ∧
      (handleEvents m frames).stats.currentConnMessages
        = m.stats.currentConnMessages + frames.length ∧
      (handleEvents m frames).stats.subscriptionEvents +
        (handleEvents m frames).stats.confirmationEvents +
        (handleEvents m frames).stats.errorEvents ≤
        m.stats.subscriptionEvents + m.stats.confirmationEvents + m.stats.errorEvents +
          frames.length) ∧
    (∀ (m : Manager) (r : JSONRPCResponse) (now : Nat),
      (m.HandleResponse r now).stats.lastEventTime = now) ∧
    (∀ (m : Manager) (r : JSONRPCResponse) (now : Nat),
      r.method = "" → r.result = RpcResult.null → r.error = RpcError.null →
      (m.HandleResponse r now).stats.subscriptionEvents = m.stats.subscriptionEvents ∧
      (m.HandleResponse r now).stats.confirmationEvents = m.stats.confirmationEvents ∧
      (m.HandleResponse r now).stats.errorEvents = m.stats.errorEvents) := by
  refine ⟨?_, ?_, ?_⟩
  · intro m frames
    induction frames generalizing m with
    | nil => simp [handleEvents]
    | cons p rest ih =>
        obtain ⟨h1, h2, _, _, _, _, _, _, _, _, _, _, h13⟩ :=
          HandleResponse_fixed m p.1 p.2
        obtain ⟨g1, g2, g3⟩ := ih (m.HandleResponse p.1 p.2)
        simp only [handleEvents, List.foldl_cons, List.length_cons] at g1 g2 g3 ⊢
        omega
  · intro m r now
    exact (HandleResponse_fixed m r now).2.2.1
  · intro m r now h1 h2 h3
    obtain ⟨jr, rid, res, rerr, meth, rpar⟩ := r
    simp only at h1 h2 h3
    subst h1; subst h2; subst h3
    simp [Manager.HandleResponse, RpcResult.isPresent, RpcError.isPresent]

/-- Witness for C4 at concrete inputs. -/
theorem C4_witness :
    ((handleEvents (NewManager 0) [(emptyFrame, 1), (notifFrame "h", 2)]).stats.eventsReceived
      = (NewManager 0).stats.eventsReceived + 2) ∧
    ((NewManager 0).HandleResponse emptyFrame 7).stats.lastEventTime = 7 ∧
    ((NewManager 0).HandleResponse emptyFrame 7).stats.subscriptionEvents
      = (NewManager 0).stats.subscriptionEvents := by
  refine ⟨(C4_handle_event_counts.1 (NewManager 0) _).1,
    C4_handle_event_counts.2.1 (NewManager 0) emptyFrame 7,
    (C4_handle_event_counts.2.2 (NewManager 0) emptyFrame 7 rfl rfl rfl).1⟩

/-- `IncrementReconnections` is the identity while no connection has begun. -/
theorem IncrementReconnections_noop (m : Manager) (h : m.stats.totalConnections = 0) :
    m.IncrementReconnections = m := by
  simp [Manager.IncrementReconnections, h]

/-- C3: any number of `IncrementReconnections` calls on a fresh aggregate
leaves the reconnection counter at 0; once `StartNewConnection` has run (so
`TotalConnections > 0`), each call adds exactly 1. -/
theorem C3_reconnection_guard :
    (∀ t0 n : Nat,
      (Manager.IncrementReconnections^[n] (NewManager t0)).stats.totalReconnections = 0) ∧
    (∀ m : Manager, 0 < m.stats.totalConnections →
      m.IncrementReconnections.stats.totalReconnections = m.stats.totalReconnections + 1) ∧
    (∀ (m : Manager) (now : Nat), 0 < (m.StartNewConnection now).stats.totalConnections) := by
  refine ⟨?_, ?_, ?_⟩
  · intro t0 n
    rw [Function.iterate_fixed (IncrementReconnections_noop _ rfl) n]
    rfl
  · intro m h
    simp [Manager.IncrementReconnections, h]
  · intro m now
    simp [Manager.StartNewConnection]

/-- Witness for C3 at concrete inputs. -/
theorem C3_witness :
    (Manager.IncrementReconnections^[5] (NewManager 0)).stats.totalReconnections = 0 ∧
    (((NewManager 0).StartNewConnection 3).IncrementReconnections).stats.totalReconnections
      = ((NewManager 0).StartNewConnection 3).stats.totalReconnections + 1 := by
  exact ⟨C3_reconnection_guard.1 0 5,
    C3_reconnection_guard.2.1 ((NewManager 0).StartNewConnection 3) (by decide)⟩

/-- C5: `EndConnection` is a no-op when no connection has begun; otherwise
it adds the elapsed duration of the current connection to cumulative
uptime, appends exactly one history record, and updates the extrema by
strict comparison with `0` as the unset sentinel, so the first recorded
duration (even a zero one) sets both extrema to that same duration. -/
theorem C5_end_connection :
    (∀ (m : Manager) (now : Nat), m.stats.totalConnections = 0 → m.EndConnection now = m) ∧
    (∀ (m : Manager) (now : Nat), 0 < m.stats.totalConnections →
      (m.EndConnection now).stats.totalUptime
        = m.stats.totalUptime + (now - m.stats.currentConnStart) ∧
      (m.EndConnection now).connectionHistory = m.connectionHistory ++
        [{ connectionNum := m.stats.totalConnections
           startTime := m.stats.currentConnStart
           endTime := now
           duration := now - m.stats.currentConnStart
           messages := m.stats.currentConnMessages }] ∧
      (m.EndConnection now).stats.longestConnection =
        (if m.stats.longestConnection = 0 ∨
            m.stats.longestConnection < now - m.stats.currentConnStart
         then now - m.stats.currentConnStart else m.stats.longestConnection) ∧
      (m.EndConnection now).stats.shortestConnection =
        (if m.stats.shortestConnection = 0 ∨
            now - m.stats.currentConnStart < m.stats.shortestConnection
         then now - m.stats.currentConnStart else m.stats.shortestConnection) ∧
      (m.stats.longestConnection = 0 → m.stats.shortestConnection = 0 →
        (m.EndConnection now).stats.longestConnection = now - m.stats.currentConnStart ∧
        (m.EndConnection now).stats.shortestConnection = now - m.stats.currentConnStart)) := by
  constructor
  · intro m now h
    simp [Manager.EndConnection, h]
  · intro m now h
    refine ⟨?_, ?_, ?_, ?_, ?_⟩ <;>
      simp [Manager.EndConnection, h]
    intro h1 h2
    simp [h1, h2]

/-- Witness for C5: a fresh connection begun at 10 and ended at 15 adds 5 to
uptime and sets both extrema to 5; `EndConnection` before any connection is
the identity. -/
theorem C5_witness :
    ((((NewManager 0).StartNewConnection 10).EndConnection 15).stats.totalUptime
      = ((NewManager 0).StartNewConnection 10).stats.totalUptime +
        (15 - ((NewManager 0).StartNewConnection 10).stats.currentConnStart)) ∧
    ((((NewManager 0).StartNewConnection 10).EndConnection 15).stats.longestConnection = 5 ∧
     (((NewManager 0).StartNewConnection 10).EndConnection 15).stats.shortestConnection = 5) ∧
    (NewManager 7).EndConnection 5 = NewManager 7 := by
  refine ⟨(C5_end_connection.2 _ 15 (by decide)).1, ?_, C5_end_connection.1 (NewManager 7) 5 rfl⟩
  have h := (C5_end_connection.2 ((NewManager 0).StartNewConnection 10) 15 (by decide)).2.2.2.2
    rfl rfl
  simpa using h

/-- C1 counterexample: a frame with no method, a present result, a non-numeric
id, and a present error satisfies every hypothesis of the claim (not a
Notification, not Confirmation-shaped, error present), yet `HandleResponse`
leaves the error-events counter unchanged: the `else if Result != nil` branch
swallows it before the error check is reached. -/
theorem C1_counterexample :
    resultAndErrorFrame.method ≠ "eth_subscription" ∧
    ¬(resultAndErrorFrame.result.isPresent = true ∧ resultAndErrorFrame.id.isNumeric = true) ∧
    resultAndErrorFrame.error.isPresent = true ∧
    ((NewManager 0).HandleResponse resultAndErrorFrame 1).stats.errorEvents
      ≠ (NewManager 0).stats.errorEvents + 1 ∧
    ((NewManager 0).HandleResponse resultAndErrorFrame 1).stats.errorEvents = 0 := by
  decide

/-- C1 (amended): for every frame whose method is not `"eth_subscription"`,
whose result field is absent, and whose error field is present, the
error-events counter is incremented by exactly 1; each frame increments at
most one of the three categorized counters (each is nondecreasing and their
sum grows by at most 1). -/
theorem C1_error_branch :
    (∀ (m : Manager) (r : JSONRPCResponse) (now : Nat),
      r.method ≠ "eth_subscription" → r.result = RpcResult.null →
      r.error.isPresent = true →
      (m.HandleResponse r now).stats.errorEvents = m.stats.errorEvents + 1) ∧
    (∀ (m : Manager) (r : JSONRPCResponse) (now : Nat),
      m.stats.subscriptionEvents ≤ (m.HandleResponse r now).stats.subscriptionEvents ∧
      m.stats.confirmationEvents ≤ (m.HandleResponse r now).stats.confirmationEvents ∧
      m.stats.errorEvents ≤ (m.HandleResponse r now).stats.errorEvents ∧
      (m.HandleResponse r now).stats.subscriptionEvents +
        (m.HandleResponse r now).stats.confirmationEvents +
        (m.HandleResponse r now).stats.errorEvents ≤
        m.stats.subscriptionEvents + m.stats.confirmationEvents + m.stats.errorEvents + 1) := by
  constructor
  · intro m r now hm hr he
    obtain ⟨jr, rid, res, rerr, meth, rpar⟩ := r
    simp only at hm hr he
    subst hr
    cases rerr with
    | null => exact absurd he (by simp [RpcError.isPresent])
    | obj =>
        simp [Manager.HandleResponse, hm, RpcResult.isPresent, RpcError.isPresent]
  · intro m r now
    obtain ⟨_, _, _, _, _, _, _, _, _, h10, h11, h12, h13⟩ := HandleResponse_fixed m r now
    exact ⟨h10, h11, h12, h13⟩

/-- Witness for C1 (amended) at a concrete error frame. -/
theorem C1_witness :
    ((NewManager 0).HandleResponse errorOnlyFrame 3).stats.errorEvents
      = (NewManager 0).stats.errorEvents + 1 ∧
    (NewManager 0).stats.subscriptionEvents ≤
      ((NewManager 0).HandleResponse errorOnlyFrame 3).stats.subscriptionEvents := by
  exact ⟨C1_error_branch.1 (NewManager 0) errorOnlyFrame 3 (by decide) rfl rfl,
    (C1_error_branch.2 (NewManager 0) errorOnlyFrame 3).1⟩

/-- C6 counterexample: the code uses the empty string as the not-found
sentinel of the registry, so a handle registered with the empty logical type
is bucketed under `"unknown"` rather than attributed to the registered
(empty) type. -/
theorem C6_counterexample :
    ((((NewManager 0).SetSubscriptionMapping "h1" "").HandleResponse
        (notifFrame "h1") 1).messagesByType "unknown" = 1) ∧
    ((((NewManager 0).SetSubscriptionMapping "h1" "").HandleResponse
        (notifFrame "h1") 1).messagesByType "" = 0) := by
  decide

/-- C6 (amended): for every handle and every non-empty logical type,
registering and then handling a Notification carrying that handle attributes
the notification to the registered type (and not to `"unknown"`, when the
type is not itself `"unknown"`); registering the same handle twice keeps the
last written type; a never-registered handle is looked up as the empty
sentinel and the notification is bucketed under `"unknown"`, never failing. -/
theorem C6_registry :
    (∀ (m : Manager) (hdl ty : String) (r : JSONRPCResponse) (now : Nat),
      ty ≠ "" → r.method = "eth_subscription" → r.params = RpcParams.mapWithSub hdl →
      ((m.SetSubscriptionMapping hdl ty).HandleResponse r now).messagesByType ty
        = m.messagesByType ty + 1 ∧
      (ty ≠ "unknown" →
        ((m.SetSubscriptionMapping hdl ty).HandleResponse r now).messagesByType "unknown"
          = m.messagesByType "unknown")) ∧
    (∀ (m : Manager) (hdl t1 t2 : String),
      ((m.SetSubscriptionMapping hdl t1).SetSubscriptionMapping hdl t2).getSubscriptionTypeFromID
        hdl = t2) ∧
    (∀ (m : Manager) (hdl : String) (r : JSONRPCResponse) (now : Nat),
      m.subIDToType hdl = none → r.method = "eth_subscription" →
      r.params = RpcParams.mapWithSub hdl →
      (m.HandleResponse r now).messagesByType "unknown"
        = m.messagesByType "unknown" + 1 ∧
      m.getSubscriptionTypeFromID hdl = "") := by
  refine ⟨?_, ?_, ?_⟩
  · intro m hdl ty r now hty hmeth hpar
    obtain ⟨jr, rid, res, rerr, meth, rpar⟩ := r
    simp only at hmeth hpar
    subst hmeth; subst hpar
    constructor
    · simp [Manager.HandleResponse, Manager.SetSubscriptionMapping,
        Manager.getSubscriptionTypeFromID, bumpCount, hty]
    · intro hunk
      simp [Manager.HandleResponse, Manager.SetSubscriptionMapping,
        Manager.getSubscriptionTypeFromID, bumpCount, hty, Ne.symm hunk]
  · intro m hdl t1 t2
    simp [Manager.SetSubscriptionMapping, Manager.getSubscriptionTypeFromID]
  · intro m hdl r now hnone hmeth hpar
    obtain ⟨jr, rid, res, rerr, meth, rpar⟩ := r
    simp only at hmeth hpar
    subst hmeth; subst hpar
    constructor
    · simp [Manager.HandleResponse, Manager.getSubscriptionTypeFromID, bumpCount, hnone]
    · simp [Manager.getSubscriptionTypeFromID, hnone]

/-- Witness for C6 (amended) at concrete inputs. -/
theorem C6_witness :
    (((NewManager 0).SetSubscriptionMapping "0xabc" "newHeads").HandleResponse
        (notifFrame "0xabc") 2).messagesByType "newHeads"
      = (NewManager 0).messagesByType "newHeads" + 1 ∧
    (((NewManager 0).SetSubscriptionMapping "0xdef" "logs").SetSubscriptionMapping "0xdef"
        "newHeads").getSubscriptionTypeFromID "0xdef" = "newHeads" ∧
    ((NewManager 0).HandleResponse (notifFrame "0x999") 4).messagesByType "unknown"
      = (NewManager 0).messagesByType "unknown" + 1 := by
  exact ⟨(C6_registry.1 (NewManager 0) "0xabc" "newHeads" (notifFrame "0xabc") 2
      (by decide) rfl rfl).1,
    C6_registry.2.1 (NewManager 0) "0xdef" "logs" "newHeads",
    (C6_registry.2.2 (NewManager 0) "0x999" (notifFrame "0x999") 4 rfl rfl rfl).1⟩

/-- C8 counterexample: when events-received is 0 the code does not compute a
success rate of 0 — the guard skips the computation entirely and the line is
omitted (`none`), which is also why no division by zero can occur. -/
theorem C8_counterexample :
    (NewManager 0).stats.eventsReceived = 0 ∧
    (NewManager 0).finalSuccessRate = none ∧
    (NewManager 0).finalSuccessRate ≠ some 0 := by
  refine ⟨rfl, rfl, by decide⟩

/-- C8 (amended): when events-received is positive the success rate equals
`100 × (received − errors) ÷ received` (hence `100` when there are no error
events); when events-received is 0 the success-rate line is omitted
entirely, so no division by zero occurs in any case. -/
theorem C8_success_rate :
    (∀ m : Manager, 0 < m.stats.eventsReceived →
      m.finalSuccessRate = some (100 * ((m.stats.eventsReceived : ℚ) -
        (m.stats.errorEvents : ℚ)) / (m.stats.eventsReceived : ℚ))) ∧
    (∀ m : Manager, 0 < m.stats.eventsReceived → m.stats.errorEvents = 0 →
      m.finalSuccessRate = some 100) ∧
    (∀ m : Manager, m.stats.eventsReceived = 0 → m.finalSuccessRate = none) := by
  refine ⟨?_, ?_, ?_⟩
  · intro m h
    simp only [Manager.finalSuccessRate, if_pos h]
    congr 1
    ring
  · intro m h he
    have hne : (m.stats.eventsReceived : ℚ) ≠ 0 := by
      exact_mod_cast Nat.pos_iff_ne_zero.mp h
    simp only [Manager.finalSuccessRate, if_pos h, he, Nat.cast_zero, sub_zero]
    rw [div_self hne]
    norm_num
  · intro m h
    simp [Manager.finalSuccessRate, h]

/-- Witness for C8 (amended): after one error frame and one malformed frame,
received = 2 and errors = 1, so the rate is `100 × (2 − 1) ÷ 2 = 50`; after a
single malformed frame the rate is `100`. -/
theorem C8_witness :
    (handleEvents (NewManager 0) [(errorOnlyFrame, 1), (emptyFrame, 2)]).finalSuccessRate
      = some (100 *
        (((handleEvents (NewManager 0) [(errorOnlyFrame, 1), (emptyFrame, 2)]).stats.eventsReceived : ℚ) -
         ((handleEvents (NewManager 0) [(errorOnlyFrame, 1), (emptyFrame, 2)]).stats.errorEvents : ℚ)) /
        ((handleEvents (NewManager 0) [(errorOnlyFrame, 1), (emptyFrame, 2)]).stats.eventsReceived : ℚ)) ∧
    (handleEvents (NewManager 0) [(emptyFrame, 1)]).finalSuccessRate = some 100 := by
  exact ⟨C8_success_rate.1 _ (by decide),
    C8_success_rate.2.1 _ (by decide) (by decide)⟩

/-- C2 (code-bug demonstration): begin a connection at instant 10, end it at
15 (uptime 5, one recorded connection of duration 5), then run the final
flush at 20.  `EndConnection` never clears `CurrentConnStart`, so
`PrintFinalStats` adds `20 − 10` again and reports a total uptime of 15 even
though every begun connection had already ended and the recorded durations
sum to 5. -/
theorem C2_uptime_double_count :
    ((((NewManager 0).StartNewConnection 10).EndConnection 15).stats.totalUptime = 5) ∧
    (((((NewManager 0).StartNewConnection 10).EndConnection 15).connectionHistory.map
        (fun cr => cr.duration)).sum = 5) ∧
    ((((NewManager 0).StartNewConnection 10).EndConnection 15).stats.currentConnStart = 10) ∧
    (((((NewManager 0).StartNewConnection 10).EndConnection 15).PrintFinalStats 20).stats.totalUptime
      = 15) := by
  decide

/-- C7: with subscription list `"newHeads,logs"` and instance count 2 and
all writes succeeding, the send phase writes exactly 4 requests with
distinct ids 1,2,3,4 and the expected per-type params shapes, and the
total-subscriptions counter reaches 4; the params shape is a single-element
name list for the two plain recognized types, name-plus-null-topics-filter
for `"logs"`, and the literal name for anything else; entries that trim to
empty are skipped; a failed write consumes and skips exactly its own id
without aborting the rest of the batch. -/
theorem C7_send_phase :
    ((sendSubscriptions cfgNewHeadsLogs2 (fun _ => false) NewWebSocketClient).sent =
      [⟨"2.0", 1, "eth_subscribe", SubParams.names ["newHeads"]⟩,
       ⟨"2.0", 2, "eth_subscribe", SubParams.names ["newHeads"]⟩,
       ⟨"2.0", 3, "eth_subscribe", SubParams.nameAndNullTopicsFilter "logs"⟩,
       ⟨"2.0", 4, "eth_subscribe", SubParams.nameAndNullTopicsFilter "logs"⟩] ∧
     (sendSubscriptions cfgNewHeadsLogs2 (fun _ => false)
        NewWebSocketClient).client.GetTotalSubscriptions = 4) ∧
    (paramsForSub "newHeads" = SubParams.names ["newHeads"] ∧
     paramsForSub "newPendingTransactions" = SubParams.names ["newPendingTransactions"] ∧
     paramsForSub "logs" = SubParams.nameAndNullTopicsFilter "logs" ∧
     ∀ sub : String, sub ≠ "newHeads" → sub ≠ "newPendingTransactions" → sub ≠ "logs" →
       paramsForSub sub = SubParams.names [sub]) ∧
    (∀ (n : Nat) (fail : Nat → Bool) (st : SendSt) (entry : String),
      goTrimSpace entry = "" → processEntry n fail st entry = st) ∧
    (∀ (fail : Nat → Bool) (sub : String) (i : Nat) (st : SendSt),
      fail st.requestID = true →
      sendInstance fail sub i st =
        { client := st.client, sent := st.sent, requestID := st.requestID + 1 }) ∧
    ((sendSubscriptions cfgNewHeadsLogs2 (fun n => n = 2) NewWebSocketClient).sent.map
        (fun q => q.id) = [1, 3, 4] ∧
     (sendSubscriptions cfgNewHeadsLogs2 (fun n => n = 2)
        NewWebSocketClient).client.GetTotalSubscriptions = 3) := by
  refine ⟨⟨by decide, by decide⟩, ⟨by decide, by decide, by decide, ?_⟩, ?_, ?_, by decide,
    by decide⟩
  · intro sub h1 h2 h3
    simp [paramsForSub, h1, h2, h3]
  · intro n fail st entry h
    simp [processEntry, h]
  · intro fail sub i st h
    simp [sendInstance, h]

/-- Witness for C7 at concrete inputs: an unrecognized type passes through
verbatim, an all-whitespace entry is skipped, and a failing write only bumps
the id counter. -/
theorem C7_witness :
    paramsForSub "foo" = SubParams.names ["foo"] ∧
    processEntry 2 (fun _ => false)
      { client := NewWebSocketClient, sent := [], requestID := 1 } "  " =
      { client := NewWebSocketClient, sent := [], requestID := 1 } ∧
    sendInstance (fun _ => true) "newHeads" 1
        { client := NewWebSocketClient, sent := [], requestID := 1 } =
      { client := NewWebSocketClient, sent := [], requestID := 2 } := by
  refine ⟨C7_send_phase.2.1.2.2.2 "foo" (by decide) (by decide) (by decide),
    C7_send_phase.2.2.1 2 (fun _ => false) _ "  " (by decide), ?_⟩
  exact C7_send_phase.2.2.2.1 (fun _ => true) "newHeads" 1
    { client := NewWebSocketClient, sent := [], requestID := 1 } rfl

/-- The client-side `handleResponse` differs from the manager-side one only
in the registry map (its extra `SetSubscriptionMapping` call). -/
theorem clientHandleResponse_stats (c : WSClient) (m : Manager) (r : JSONRPCResponse)
    (now : Nat) :
    (c.handleResponse m r now).stats = (m.HandleResponse r now).stats ∧
    (c.handleResponse m r now).connectionHistory = (m.HandleResponse r now).connectionHistory := by
  unfold WSClient.handleResponse
  repeat' split
  all_goals exact ⟨rfl, rfl⟩

/-- The read loop's fold never touches the connection counters or the
history. -/
theorem foldHandle_conn (c : WSClient) (frames : List (JSONRPCResponse × Nat)) :
    ∀ m : Manager,
      ((frames.foldl (fun acc p => c.handleResponse acc p.1 p.2) m).stats.totalConnections
        = m.stats.totalConnections) ∧
      ((frames.foldl (fun acc p => c.handleResponse acc p.1 p.2) m).stats.connectionAttempts
        = m.stats.connectionAttempts) ∧
      ((frames.foldl (fun acc p => c.handleResponse acc p.1 p.2) m).stats.totalReconnections
        = m.stats.totalReconnections) ∧
      ((frames.foldl (fun acc p => c.handleResponse acc p.1 p.2) m).connectionHistory
        = m.connectionHistory) := by
  induction frames with
  | nil => exact fun m => ⟨rfl, rfl, rfl, rfl⟩
  | cons p rest ih =>
      intro m
      obtain ⟨s1, s2⟩ := clientHandleResponse_stats c m p.1 p.2
      obtain ⟨g1, g2, g3, g4⟩ := ih (c.handleResponse m p.1 p.2)
      obtain ⟨_, _, _, f4, f5, f6, _, _, f9, _⟩ := HandleResponse_fixed m p.1 p.2
      simp only [List.foldl_cons]
      exact ⟨by rw [g1, s1, f4], by rw [g2, s1, f6], by rw [g3, s1, f5], by rw [g4, s2, f9]⟩

/-- Connection counters and history after the in-session fold. -/
theorem sessionMgr_conn (cfg : Config) (s : System) (fail : Nat → Bool)
    (frames : List (JSONRPCResponse × Nat)) (tStart : Nat) :
    (sessionMgr cfg s fail frames tStart).stats.totalConnections
      = s.mgr.stats.totalConnections + 1 ∧
    (sessionMgr cfg s fail frames tStart).stats.connectionAttempts
      = s.mgr.stats.connectionAttempts + 1 ∧
    (sessionMgr cfg s fail frames tStart).stats.totalReconnections
      = s.mgr.stats.totalReconnections ∧
    (sessionMgr cfg s fail frames tStart).connectionHistory = s.mgr.connectionHistory := by
  unfold sessionMgr
  obtain ⟨f1, f2, f3, f4⟩ := foldHandle_conn ((sendSubscriptions cfg fail s.client).client)
    frames ((s.mgr.IncrementConnectionAttempts).StartNewConnection tStart)
  exact ⟨f1.trans rfl, f2.trans rfl, f3.trans rfl, f4.trans rfl⟩

/-- `EndConnection` on an active connection: counters preserved, exactly one
record appended, carrying the current `TotalConnections` as its number. -/
theorem EndConnection_fixed (m : Manager) (now : Nat) (h : 0 < m.stats.totalConnections) :
    (m.EndConnection now).stats.totalConnections = m.stats.totalConnections ∧
    (m.EndConnection now).stats.connectionAttempts = m.stats.connectionAttempts ∧
    (m.EndConnection now).stats.totalReconnections = m.stats.totalReconnections ∧
    (m.EndConnection now).connectionHistory = m.connectionHistory ++
      [{ connectionNum := m.stats.totalConnections
         startTime := m.stats.currentConnStart
         endTime := now
         duration := now - m.stats.currentConnStart
         messages := m.stats.currentConnMessages }] := by
  simp [Manager.EndConnection, h]

/-- `IncrementReconnections` preserves everything except (possibly) the
reconnection counter, which grows by at most 1. -/
theorem IncrementReconnections_fixed (m : Manager) :
    m.IncrementReconnections.stats.totalConnections = m.stats.totalConnections ∧
    m.IncrementReconnections.stats.connectionAttempts = m.stats.connectionAttempts ∧
    m.IncrementReconnections.connectionHistory = m.connectionHistory ∧
    m.stats.totalReconnections ≤ m.IncrementReconnections.stats.totalReconnections ∧
    m.IncrementReconnections.stats.totalReconnections ≤ m.stats.totalReconnections + 1 := by
  unfold Manager.IncrementReconnections
  split <;> simp

/-- Every iteration of the connection loop preserves the manager invariant. -/
theorem SysStep_preserves_MgrInv {cfg : Config} {s s' : System}
    (hstep : SysStep cfg s s') (hinv : MgrInv s.mgr) : MgrInv s'.mgr := by
  obtain ⟨i1, i2, i3, i4⟩ := hinv
  cases hstep with
  | invalidURL => exact ⟨i1, i2, i3, i4⟩
  | dialFail =>
      obtain ⟨a1, a2, a3, a4, a5⟩ :=
        IncrementReconnections_fixed s.mgr.IncrementConnectionAttempts
      have r1 : s.mgr.IncrementConnectionAttempts.stats.totalConnections
          = s.mgr.stats.totalConnections := rfl
      have r2 : s.mgr.IncrementConnectionAttempts.stats.connectionAttempts
          = s.mgr.stats.connectionAttempts + 1 := rfl
      have r3 : s.mgr.IncrementConnectionAttempts.stats.totalReconnections
          = s.mgr.stats.totalReconnections := rfl
      show MgrInv ((s.mgr.IncrementConnectionAttempts).IncrementReconnections)
      refine ⟨by omega, by omega, ?_, ?_⟩
      · rw [a3]
        exact i3
      · intro cr hcr
        rw [a3] at hcr
        obtain ⟨h1, h2⟩ := i4 cr hcr
        refine ⟨h1, ?_⟩
        omega
  | session fail frames tStart tEnd interrupted =>
      obtain ⟨e1, e2, e3, e4⟩ := sessionMgr_conn cfg s fail frames tStart
      cases interrupted with
      | true =>
          show MgrInv (sessionMgr cfg s fail frames tStart)
          refine ⟨by omega, by omega, by rw [e4]; exact i3, ?_⟩
          · intro cr hcr
            rw [e4] at hcr
            obtain ⟨h1, h2⟩ := i4 cr hcr
            exact ⟨h1, by omega⟩
      | false =>
          show MgrInv ((sessionMgr cfg s fail frames tStart).EndConnection
            tEnd).IncrementReconnections
          have hpos : 0 < (sessionMgr cfg s fail frames tStart).stats.totalConnections := by
            omega
          obtain ⟨g1, g2, g3, g4⟩ :=
            EndConnection_fixed (sessionMgr cfg s fail frames tStart) tEnd hpos
          obtain ⟨b1, b2, b3, b4, b5⟩ :=
            IncrementReconnections_fixed ((sessionMgr cfg s fail frames tStart).EndConnection tEnd)
          refine ⟨by omega, by omega, ?_, ?_⟩
          · rw [b3, g4, e4]
            refine List.chain'_append.mpr ⟨i3, List.chain'_singleton _, ?_⟩
            intro x hx y hy
            obtain ⟨hne, hxl⟩ := List.mem_getLast?_eq_getLast hx
            obtain ⟨hx1, hx2⟩ := i4 x (hxl ▸ List.getLast_mem hne)
            simp only [List.head?_cons, Option.mem_def, Option.some.injEq] at hy
            subst hy
            simp only
            omega
          · intro cr hcr
            rw [b3, g4, e4] at hcr
            rcases List.mem_append.mp hcr with hold | hnew
            · obtain ⟨h1, h2⟩ := i4 cr hold
              refine ⟨h1, ?_⟩
              rw [b1, g1]
              omega
            · simp only [List.mem_singleton] at hnew
              subst hnew
              simp only
              rw [b1, g1]
              omega

/-- The manager invariant holds in every reachable state. -/
theorem SysReachable_MgrInv {cfg : Config} {s : System} (h : SysReachable cfg s) :
    MgrInv s.mgr := by
  induction h with
  | init t0 =>
      exact ⟨Nat.le_refl 0, Nat.le_refl 0, List.chain'_nil, by intro cr hcr; cases hcr⟩
  | step hr hs ih => exact SysStep_preserves_MgrInv hs ih

/-- The history is append-only across every iteration of the loop. -/
theorem SysStep_history_append {cfg : Config} {s s' : System} (h : SysStep cfg s s') :
    ∃ t, s'.mgr.connectionHistory = s.mgr.connectionHistory ++ t := by
  cases h with
  | invalidURL => exact ⟨[], by simp⟩
  | dialFail =>
      obtain ⟨_, _, a3, _, _⟩ :=
        IncrementReconnections_fixed s.mgr.IncrementConnectionAttempts
      refine ⟨[], ?_⟩
      show (s.mgr.IncrementConnectionAttempts).IncrementReconnections.connectionHistory
        = s.mgr.connectionHistory ++ []
      rw [a3, List.append_nil]
      rfl
  | session fail frames tStart tEnd interrupted =>
      obtain ⟨e1, e2, e3, e4⟩ := sessionMgr_conn cfg s fail frames tStart
      cases interrupted with
      | true =>
          refine ⟨[], ?_⟩
          show (sessionMgr cfg s fail frames tStart).connectionHistory
            = s.mgr.connectionHistory ++ []
          rw [e4, List.append_nil]
      | false =>
          have hpos : 0 < (sessionMgr cfg s fail frames tStart).stats.totalConnections := by
            omega
          obtain ⟨g1, g2, g3, g4⟩ :=
            EndConnection_fixed (sessionMgr cfg s fail frames tStart) tEnd hpos
          obtain ⟨b1, b2, b3, b4, b5⟩ :=
            IncrementReconnections_fixed ((sessionMgr cfg s fail frames tStart).EndConnection tEnd)
          refine ⟨[{ connectionNum := (sessionMgr cfg s fail frames tStart).stats.totalConnections
                     startTime := (sessionMgr cfg s fail frames tStart).stats.currentConnStart
                     endTime := tEnd
                     duration := tEnd - (sessionMgr cfg s fail frames tStart).stats.currentConnStart
                     messages :=
                       (sessionMgr cfg s fail frames tStart).stats.currentConnMessages }], ?_⟩
          show ((sessionMgr cfg s fail frames tStart).EndConnection
            tEnd).IncrementReconnections.connectionHistory = _
          rw [b3, g4, e4]

/-- C9: in every state reachable by the connection loop, connection attempts
bound both total connections and reconnections; the history is append-only,
its connection numbers are 1-based and nondecreasing and each is bounded by
the current `TotalConnections`; and the record appended by `EndConnection`
carries exactly the `TotalConnections` value at the time it is recorded. -/
theorem C9_connection_invariants :
    (∀ (cfg : Config) (s : System), SysReachable cfg s →
      s.mgr.stats.totalConnections ≤ s.mgr.stats.connectionAttempts ∧
      s.mgr.stats.totalReconnections ≤ s.mgr.stats.connectionAttempts ∧
      List.Chain' (fun a b => a.connectionNum ≤ b.connectionNum) s.mgr.connectionHistory ∧
      ∀ cr ∈ s.mgr.connectionHistory, 1 ≤ cr.connectionNum ∧
        cr.connectionNum ≤ s.mgr.stats.totalConnections) ∧
    (∀ (cfg : Config) (s s' : System), SysStep cfg s s' →
      ∃ t, s'.mgr.connectionHistory = s.mgr.connectionHistory ++ t) ∧
    (∀ (m : Manager) (now : Nat), 0 < m.stats.totalConnections →
      (m.EndConnection now).connectionHistory = m.connectionHistory ++
        [{ connectionNum := m.stats.totalConnections
           startTime := m.stats.currentConnStart
           endTime := now
           duration := now - m.stats.currentConnStart
           messages := m.stats.currentConnMessages }]) := by
  refine ⟨?_, ?_, ?_⟩
  · intro cfg s h
    exact SysReachable_MgrInv h
  · intro cfg s s' h
    exact SysStep_history_append h
  · intro m now h
    exact (EndConnection_fixed m now h).2.2.2

/-- Witness for C9: the invariant at the concrete reachable state reached by
one failed dial, the append-only fact across that step, and the record
appended by a concrete `EndConnection`. -/
theorem C9_witness :
    (sys1.mgr.stats.totalConnections ≤ sys1.mgr.stats.connectionAttempts ∧
     sys1.mgr.stats.totalReconnections ≤ sys1.mgr.stats.connectionAttempts) ∧
    (∃ t, sys1.mgr.connectionHistory = sys0.mgr.connectionHistory ++ t) ∧
    (((NewManager 0).StartNewConnection 10).EndConnection 15).connectionHistory =
      ((NewManager 0).StartNewConnection 10).connectionHistory ++
      [{ connectionNum := 1, startTime := 10, endTime := 15, duration := 5, messages := 0 }] := by
  have hreach : SysReachable cfgNewHeadsLogs2 sys1 :=
    SysReachable.step (SysReachable.init 0) (SysStep.dialFail sys0)
  have hinv := C9_connection_invariants.1 cfgNewHeadsLogs2 sys1 hreach
  refine ⟨⟨hinv.1, hinv.2.1⟩,
    C9_connection_invariants.2.1 cfgNewHeadsLogs2 sys0 sys1 (SysStep.dialFail sys0), ?_⟩
  have h := C9_connection_invariants.2.2 ((NewManager 0).StartNewConnection 10) 15 (by decide)
  rw [h]
  decide

/-- One send attempt adds one successful write (unless it fails) and always
advances the request id. -/
theorem sendInstance_effect (fail : Nat → Bool) (sub : String) (i : Nat) (st : SendSt) :
    ((sendInstance fail sub i st).client.totalSubscriptions
      = st.client.totalSubscriptions + (if fail st.requestID then 0 else 1)) ∧
    (sendInstance fail sub i st).requestID = st.requestID + 1 := by
  unfold sendInstance
  split <;> simp_all

/-- The inner instance loop adds `instancesDelta` successful writes and
advances the request id by the number of attempts. -/
theorem sendLoop_total (fail : Nat → Bool) (sub : String) (l : List Nat) :
    ∀ st : SendSt,
      ((l.foldl (fun acc i => sendInstance fail sub i acc) st).client.totalSubscriptions
        = st.client.totalSubscriptions + instancesDelta fail st.requestID l.length) ∧
      ((l.foldl (fun acc i => sendInstance fail sub i acc) st).requestID
        = st.requestID + l.length) := by
  induction l with
  | nil => intro st; simp [instancesDelta]
  | cons i rest ih =>
      intro st
      obtain ⟨g1, g2⟩ := ih (sendInstance fail sub i st)
      obtain ⟨h1, h2⟩ := sendInstance_effect fail sub i st
      simp only [List.foldl_cons, List.length_cons]
      rw [instancesDelta]
      constructor
      · rw [g1, h1, h2]
        omega
      · rw [g2, h2]
        omega

/-- The outer entry loop adds `entriesDelta` successful writes and advances
the request id by `entriesShift`. -/
theorem entriesLoop_total (fail : Nat → Bool) (subCount : Nat) (entries : List String) :
    ∀ st : SendSt,
      ((entries.foldl (processEntry subCount fail) st).client.totalSubscriptions
        = st.client.totalSubscriptions + entriesDelta fail subCount st.requestID entries) ∧
      ((entries.foldl (processEntry subCount fail) st).requestID
        = st.requestID + entriesShift subCount entries) := by
  induction entries with
  | nil => intro st; simp [entriesDelta, entriesShift]
  | cons e rest ih =>
      intro st
      by_cases he : goTrimSpace e = ""
      · obtain ⟨g1, g2⟩ := ih st
        simp only [List.foldl_cons]
        rw [show processEntry subCount fail st e = st by simp [processEntry, he]]
        rw [entriesDelta, entriesShift]
        simp [he, g1, g2]
      · have hp : processEntry subCount fail st e =
            (List.range' 1 subCount).foldl (fun acc i => sendInstance fail (goTrimSpace e) i acc)
              st := by
          simp [processEntry, he]
        obtain ⟨l1, l2⟩ := sendLoop_total fail (goTrimSpace e) (List.range' 1 subCount) st
        rw [List.length_range'] at l1 l2
        obtain ⟨g1, g2⟩ := ih (processEntry subCount fail st e)
        rw [hp] at g1 g2
        simp only [List.foldl_cons]
        refine ⟨?_, ?_⟩
        · rw [hp, g1, l1, l2]
          simp only [entriesDelta]
          rw [if_neg he]
          omega
        · rw [hp, g2, l2]
          simp only [entriesShift]
          rw [if_neg he]
          omega

/-- `sendSubscriptions` adds exactly `sendCount cfg fail` subscriptions to
whatever the counter already holds: the counter accumulates and is never
reset by a send phase. -/
theorem sendSubscriptions_adds (cfg : Config) (fail : Nat → Bool) (c : WSClient) :
    (sendSubscriptions cfg fail c).client.totalSubscriptions
      = c.totalSubscriptions + sendCount cfg fail := by
  have h1 := (entriesLoop_total fail cfg.subCount (goSplitComma cfg.subscriptions)
    { client := c, sent := [], requestID := 1 }).1
  have h2 := (entriesLoop_total fail cfg.subCount (goSplitComma cfg.subscriptions)
    { client := NewWebSocketClient, sent := [], requestID := 1 }).1
  unfold sendSubscriptions sendCount
  unfold sendSubscriptions
  rw [h1, h2]
  simp [NewWebSocketClient]

/-- A session's effect on the client state is exactly its send phase. -/
theorem runSession_client (cfg : Config) (s : System) (fail : Nat → Bool)
    (frames : List (JSONRPCResponse × Nat)) (tStart tEnd : Nat) (interrupted : Bool) :
    (runSession cfg s fail frames tStart tEnd interrupted).client
      = (sendSubscriptions cfg fail s.client).client := by
  unfold runSession
  cases interrupted <;> simp

/-- `R` sessions with a common per-call write-failure pattern add
`R × sendCount` subscriptions. -/
theorem iterSessions_total (cfg : Config) (fail : Nat → Bool)
    (frames : Nat → List (JSONRPCResponse × Nat)) (ts te : Nat → Nat) (intr : Nat → Bool) :
    ∀ (R : Nat) (s : System),
      (iterSessions cfg fail frames ts te intr R s).client.totalSubscriptions
        = s.client.totalSubscriptions + R * sendCount cfg fail := by
  intro R
  induction R with
  | zero => intro s; simp [iterSessions]
  | succ n ih =>
      intro s
      rw [iterSessions, ih, runSession_client, sendSubscriptions_adds]
      ring

/-- C10: the total-subscriptions counter is never reset at a connection
boundary — it is nondecreasing across every iteration of the connection
loop, each send phase adds its successful-write count on top of the running
total, and after `R` successful connections with the same per-call
write-failure pattern the counter equals `R × sendCount` (so with `S`
successful sends per phase, it equals `R × S`). -/
theorem C10_total_subscriptions :
    (∀ (cfg : Config) (s s' : System), SysStep cfg s s' →
      s.client.GetTotalSubscriptions ≤ s'.client.GetTotalSubscriptions) ∧
    (∀ (cfg : Config) (fail : Nat → Bool) (c : WSClient),
      (sendSubscriptions cfg fail c).client.GetTotalSubscriptions
        = c.GetTotalSubscriptions + sendCount cfg fail) ∧
    (∀ (cfg : Config) (fail : Nat → Bool) (frames : Nat → List (JSONRPCResponse × Nat))
      (ts te : Nat → Nat) (intr : Nat → Bool) (R t0 : Nat),
      (iterSessions cfg fail frames ts te intr R
        { client := NewWebSocketClient, mgr := NewManager t0 }).client.GetTotalSubscriptions
        = R * sendCount cfg fail) := by
  refine ⟨?_, ?_, ?_⟩
  · intro cfg s s' h
    cases h with
    | invalidURL => exact Nat.le_refl _
    | dialFail => exact Nat.le_refl _
    | session fail frames tStart tEnd interrupted =>
        show s.client.GetTotalSubscriptions ≤
          (runSession cfg s fail frames tStart tEnd interrupted).client.GetTotalSubscriptions
        unfold WSClient.GetTotalSubscriptions
        rw [runSession_client, sendSubscriptions_adds]
        exact Nat.le_add_right _ _
  · intro cfg fail c
    exact sendSubscriptions_adds cfg fail c
  · intro cfg fail frames ts te intr R t0
    rw [show (iterSessions cfg fail frames ts te intr R
        { client := NewWebSocketClient, mgr := NewManager t0 }).client.GetTotalSubscriptions
      = (iterSessions cfg fail frames ts te intr R
        { client := NewWebSocketClient, mgr := NewManager t0 }).client.totalSubscriptions
      from rfl]
    rw [iterSessions_total cfg fail frames ts te intr R]
    simp [NewWebSocketClient]

/-- Witness for C10: across one all-success session step from the fresh
state the counter does not decrease, a send phase on a client already
holding 4 subscriptions adds `sendCount` more, and two all-success sessions
of the `"newHeads,logs"` × 2 config end with `2 × sendCount = 8`
subscriptions. -/
theorem C10_witness :
    sys0.client.GetTotalSubscriptions ≤
      (runSession cfgNewHeadsLogs2 sys0 (fun _ => false) [] 1 2
        false).client.GetTotalSubscriptions ∧
    (sendSubscriptions cfgNewHeadsLogs2 (fun _ => false)
        ((sendSubscriptions cfgNewHeadsLogs2 (fun _ => false)
          NewWebSocketClient).client)).client.GetTotalSubscriptions
      = ((sendSubscriptions cfgNewHeadsLogs2 (fun _ => false)
          NewWebSocketClient).client).GetTotalSubscriptions +
        sendCount cfgNewHeadsLogs2 (fun _ => false) ∧
    (iterSessions cfgNewHeadsLogs2 (fun _ => false) (fun _ => []) (fun _ => 1) (fun _ => 2)
        (fun _ => false) 2
        { client := NewWebSocketClient, mgr := NewManager 0 }).client.GetTotalSubscriptions
      = 2 * sendCount cfgNewHeadsLogs2 (fun _ => false) ∧
    sendCount cfgNewHeadsLogs2 (fun _ => false) = 4 := by
  refine ⟨C10_total_subscriptions.1 cfgNewHeadsLogs2 sys0 _
      (SysStep.session sys0 (fun _ => false) [] 1 2 false),
    C10_total_subscriptions.2.1 cfgNewHeadsLogs2 (fun _ => false) _,
    C10_total_subscriptions.2.2 cfgNewHeadsLogs2 (fun _ => false) (fun _ => []) (fun _ => 1)
      (fun _ => 2) (fun _ => false) 2 0,
    by decide⟩

end WsLoad
